import Mathlib

/-!
Verification development for the `mygrepr` repository: a shallow embedding
of the incremental harvesting scheduler (`scheduler.py`), the enrichment
pipeline (`backend/processors/ai.py`) and the persistence layer
(`backend/db/nocodb.py`), with the testable properties of the spec settled as
theorems.  External collaborators (the content origin, the AI provider and
the remote store) are modelled as explicit environment records; everything
the code of the repository itself computes is translated directly from the source.
-/

namespace Grepr

/-! ## Python regular-expression semantics

`extract_financial_data` is built on `re.search` / `re.findall`.  We embed
the fragment of the Python regex language that the patterns use: character
classes, concatenation, alternation (leftmost-first), greedy `*`, `+`, `?`
and counted repetition, capture groups, the `^` anchor and the `\b` word
boundary.  The matcher is a backtracking CPS matcher with the Python
preference order: alternatives left to right, quantifiers greedy.  Char
classes `\d`, `\s`, `\w` follow Python 3 `str` semantics restricted to the
Basic Latin and Latin-1 ranges (ample for the French text handled here). -/

def pyDigit (c : Char) : Bool := ('0' ≤ c && c ≤ '9')

/-- Python `\s` on `str`: ASCII whitespace plus (among others) NBSP. -/
def pySpace (c : Char) : Bool :=
  c = ' ' || c = '\t' || c = '\n' || c = '\r' ||
  c = Char.ofNat 11 || c = Char.ofNat 12 || c = Char.ofNat 0xa0 ||
  c = Char.ofNat 0x1c || c = Char.ofNat 0x1d || c = Char.ofNat 0x1e || c = Char.ofNat 0x1f ||
  c = Char.ofNat 0x85

/-- Latin-1 letters (the letters occurring in the French patterns handled here). -/
def latinLetter (c : Char) : Bool :=
  ('a' ≤ c && c ≤ 'z') || ('A' ≤ c && c ≤ 'Z') ||
  (0xC0 ≤ c.toNat && c.toNat ≤ 0xFF && c.toNat ≠ 0xD7 && c.toNat ≠ 0xF7)

/-- Python `\w` on `str`: letters, digits and underscore. -/
def pyWord (c : Char) : Bool := latinLetter c || pyDigit c || c = Char.ofNat 95

/-- Python `str.lower`, on the Basic Latin and Latin-1 ranges. -/
def lowerChar (c : Char) : Char :=
  if 'A' ≤ c && c ≤ 'Z' then Char.ofNat (c.toNat + 32)
  else if 0xC0 ≤ c.toNat && c.toNat ≤ 0xDE && c.toNat ≠ 0xD7 then Char.ofNat (c.toNat + 32)
  else c

def pyLower (s : List Char) : List Char := s.map lowerChar

/-- Regex abstract syntax (the fragment used by `ai.py`). -/
inductive RE where
  | eps : RE
  | cls (p : Char → Bool) : RE
  | cat (a b : RE) : RE
  | alt (a b : RE) : RE
  | star (a : RE) : RE
  | opt (a : RE) : RE
  | grp (n : Nat) (a : RE) : RE
  | bol : RE
  | wordB : RE

namespace RE

/-- Size measure used only to compute a sufficient fuel bound. -/
def size : RE → Nat
  | eps => 1
  | cls _ => 1
  | cat a b => a.size + b.size + 1
  | alt a b => a.size + b.size + 1
  | star a => a.size + 1
  | opt a => a.size + 1
  | grp _ a => a.size + 1
  | bol => 1
  | wordB => 1

end RE

/-- Capture environment: group number to captured character run.
The head entry for a group number is its most recent capture. -/
abbrev Caps := List (Nat × List Char)

def getCap (caps : Caps) (n : Nat) : Option (List Char) :=
  (caps.find? (fun e => e.1 = n)).map (fun e => e.2)

/-- Backtracking matcher, continuation-passing.  `prev` is the character
immediately before the current position (`none` at the start of the
subject), needed for `^` and `\b`.  `fuel` strictly decreases on every
recursive call; `reFuel` below always supplies enough of it. -/
def reMatch {ρ : Type} : Nat → RE → Option Char → List Char → Caps →
    (Option Char → List Char → Caps → Option ρ) → Option ρ
  | 0, _, _, _, _, _ => none
  | _ + 1, .eps, prev, s, caps, k => k prev s caps
  | _ + 1, .cls p, prev, s, caps, k =>
    match s with
    | [] => none
    | c :: rest => if p c then k (some c) rest caps else none
  | fuel + 1, .cat a b, prev, s, caps, k =>
    reMatch fuel a prev s caps (fun p2 s2 c2 => reMatch fuel b p2 s2 c2 k)
  | fuel + 1, .alt a b, prev, s, caps, k =>
    match reMatch fuel a prev s caps k with
    | some r => some r
    | none => reMatch fuel b prev s caps k
  | fuel + 1, .star a, prev, s, caps, k =>
    match reMatch fuel a prev s caps (fun p2 s2 c2 =>
        if s2.length < s.length then reMatch fuel (.star a) p2 s2 c2 k else none) with
    | some r => some r
    | none => k prev s caps
  | fuel + 1, .opt a, prev, s, caps, k =>
    match reMatch fuel a prev s caps k with
    | some r => some r
    | none => k prev s caps
  | fuel + 1, .grp n a, prev, s, caps, k =>
    reMatch fuel a prev s caps (fun p2 s2 c2 =>
      k p2 s2 ((n, s.take (s.length - s2.length)) :: c2))
  | _ + 1, .bol, prev, s, caps, k =>
    match prev with
    | none => k none s caps
    | some _ => none
  | _ + 1, .wordB, prev, s, caps, k =>
    let before := match prev with | none => false | some c => pyWord c
    let after := match s with | [] => false | c :: _ => pyWord c
    if before ≠ after then k prev s caps else none

/-- Fuel sufficient for `reMatch` on subject `s`. -/
def reFuel (r : RE) (s : List Char) : Nat := (r.size + 2) * (s.length + 2)

/-- Try to match `r` at the very start of `s` (with `prev` the preceding
character); on success return the captures and the rest of the subject. -/
def matchHere (r : RE) (prev : Option Char) (s : List Char) :
    Option (Caps × List Char) :=
  reMatch (reFuel r s) r prev s [] (fun _ s2 c2 => some (c2, s2))

/-- `re.search`: scan left to right for the first position where `r`
matches; leftmost semantics as in Python. -/
def reSearch (r : RE) : Option Char → List Char → Option Caps
  | prev, s =>
    match matchHere r prev s with
    | some (caps, _) => some caps
    | none =>
      match s with
      | [] => none
      | c :: rest => reSearch r (some c) rest

/-- `re.findall`: all non-overlapping matches scanning left to right;
after a non-empty match, continue at its end; after an empty match,
advance one character. -/
def reFindAll (r : RE) : Nat → Option Char → List Char → List Caps
  | 0, _, _ => []
  | fuel + 1, prev, s =>
    match matchHere r prev s with
    | some (caps, rest) =>
      if rest.length < s.length then
        caps :: reFindAll r fuel (some ((s.take (s.length - rest.length)).getLastD ' ')) rest
      else
        caps ::
          (match s with
          | [] => []
          | c :: t => reFindAll r fuel (some c) t)
    | none =>
      match s with
      | [] => []
      | c :: t => reFindAll r fuel (some c) t

def findAll (r : RE) (s : List Char) : List Caps :=
  reFindAll r (s.length + 1) none s

def search (r : RE) (s : List Char) : Option Caps :=
  reSearch r none s

/-! ### Pattern-building helpers -/

def rChar (c : Char) : RE := .cls (fun x => x = c)

/-- Case-insensitive literal character (for the `re.IGNORECASE` patterns). -/
def rCharCI (c : Char) : RE := .cls (fun x => lowerChar x = lowerChar c)

def rStr (s : List Char) : RE := s.foldr (fun c acc => .cat (rChar c) acc) .eps

def rStrCI (s : List Char) : RE := s.foldr (fun c acc => .cat (rCharCI c) acc) .eps

def rCat (l : List RE) : RE := l.foldr .cat .eps

def rPlus (a : RE) : RE := .cat a (.star a)

def rDigit : RE := .cls pyDigit

def rNotDigit : RE := .cls (fun c => !pyDigit c)

def rSpace : RE := .cls pySpace

def rWordC : RE := .cls pyWord

/-- `{1,3}` greedy repetition of `a` (prefers 3, then 2, then 1). -/
def rRep13 (a : RE) : RE := .cat a (.opt (.cat a (.opt a)))

/-- `{2}` repetition. -/
def rRep2 (a : RE) : RE := .cat a a

/-- `{3}` repetition. -/
def rRep3 (a : RE) : RE := .cat a (.cat a a)

/-- Left-to-right alternation of a pattern list. -/
def rAlt : List RE → RE
  | [] => .cls (fun _ => false)
  | [r] => r
  | r :: rest => .alt r (rAlt rest)

/-- The apostrophe character (U+0027). -/
def apos : Char := Char.ofNat 39

/-! ## The patterns of `extract_financial_data` (`ai.py`, lines 17-200)

Each definition transcribes one Python pattern literally; the Python text
is quoted in the comment above it. -/

/-- Class `[kKmM]`. -/
def clsKM : RE := .cls (fun c => c = 'k' || c = 'K' || c = 'm' || c = 'M')

/-- Class `[€$]`. -/
def clsEuro : RE := .cls (fun c => c = '€' || c = '$')

/-- Class `[.,]` (also used for `[,\.]`). -/
def clsDot : RE := .cls (fun c => c = '.' || c = ',')

/-- Class `[\s ]` (NBSP is already in Python `\s`). -/
def clsSpNbsp : RE := .cls (fun c => pySpace c || c = Char.ofNat 0xa0)

/-- `NUM_FR`: `(\d{1,3}(?:[\s ]\d{3})*(?:[.,]\d+)?)`, capture group 1. -/
def numFR : RE :=
  .grp 1 (rCat [rRep13 rDigit, .star (.cat clsSpNbsp (rRep3 rDigit)),
    .opt (.cat clsDot (rPlus rDigit))])

/-- `(\d+(?:[.,]\d+)?)` as capture group 1. -/
def numPlain : RE := .grp 1 (rCat [rPlus rDigit, .opt (.cat clsDot (rPlus rDigit))])

/-- `(\d{1,3}(?:[\s ]\d{3})*)` as capture group 1. -/
def numGrouped : RE :=
  .grp 1 (rCat [rRep13 rDigit, .star (.cat clsSpNbsp (rRep3 rDigit))])

/-- `euros?`, case-insensitive (the amount patterns carry `re.IGNORECASE`). -/
def eurosWordCI : RE := .cat (rStrCI ("euro".data)) (.opt (rCharCI 's'))

/-- `amount_patterns` from `extract_financial_data`, in source order:
1. `(\d+(?:[.,]\d+)?)\s*([kKmM])\s*[€$]`
2. `(\d{1,3}(?:[\s ]\d{3})*)\s*[€$]`
3. `(\d+(?:[.,]\d+)?)\s*[€$]`
4. `[€$]\s*(\d+(?:[.,]\d+)?)\s*([kKmM])?`
5. `(\d{1,3}(?:[\s ]\d{3})*)\s*euros?`
6. `(\d+(?:[.,]\d+)?)\s*([kKmM])?\s*euros?` -/
def amount_patterns : List RE :=
  [ rCat [numPlain, .star rSpace, .grp 2 clsKM, .star rSpace, clsEuro],
    rCat [numGrouped, .star rSpace, clsEuro],
    rCat [numPlain, .star rSpace, clsEuro],
    rCat [clsEuro, .star rSpace, numPlain, .star rSpace, .opt (.grp 2 clsKM)],
    rCat [numGrouped, .star rSpace, eurosWordCI],
    rCat [numPlain, .star rSpace, .opt (.grp 2 clsKM), .star rSpace, eurosWordCI] ]

/-- `\s*([kKmM])?` suffix shared by the field patterns. -/
def optMult : RE := .cat (.star rSpace) (.opt (.grp 2 clsKM))

/-- `(?:par\s+mois|\/mois|mensuel)`. -/
def perMonth : RE :=
  rAlt [rCat [rStr ("par".data), rPlus rSpace, rStr ("mois".data)],
    rStr ("/mois".data), rStr ("mensuel".data)]

/-- `(?:par\s+mois|\/mois)` (no `mensuel`). -/
def perMonthShort : RE :=
  rAlt [rCat [rStr ("par".data), rPlus rSpace, rStr ("mois".data)],
    rStr ("/mois".data)]

/-- `(?:par\s+an|\/an|annuel)`. -/
def perYear : RE :=
  rAlt [rCat [rStr ("par".data), rPlus rSpace, rStr ("an".data)],
    rStr ("/an".data), rStr ("annuel".data)]

/-- `patrimoine_patterns`, in source order:
1. `patrimoine[^\d]*NUM_FR\s*([kKmM])?`
2. `NUM_FR\s*([kKmM])?\s*(?:€|euros?)?\s*(?:de\s+)?patrimoine`
3. `atteint\s+NUM_FR\s*([kKmM])?`
4. `j\'?ai\s+NUM_FR\s*([kKmM])?\s*[€$]` -/
def patrimoine_patterns : List RE :=
  [ rCat [rStr ("patrimoine".data), .star rNotDigit, numFR, optMult],
    rCat [numFR, optMult, .star rSpace,
      .opt (.alt (rChar '€') (.cat (rStr ("euro".data)) (.opt (rChar 's')))),
      .star rSpace, .opt (rCat [rStr ("de".data), rPlus rSpace]),
      rStr ("patrimoine".data)],
    rCat [rStr ("atteint".data), rPlus rSpace, numFR, optMult],
    rCat [rChar 'j', .opt (rChar apos), rStr ("ai".data), rPlus rSpace, numFR,
      optMult, .star rSpace, clsEuro] ]

/-- `revenus_patterns`, in source order:
1. `NUM_FR\s*([kKmM])?\s*[€$]?\s*(?:par\s+an|\/an|annuel)`
2. `salaire[^\d]*NUM_FR\s*([kKmM])?`
3. `revenu[^\d]*NUM_FR\s*([kKmM])?`
4. `gagne[^\d]*NUM_FR\s*([kKmM])?` -/
def revenus_patterns : List RE :=
  [ rCat [numFR, optMult, .star rSpace, .opt clsEuro, .star rSpace, perYear],
    rCat [rStr ("salaire".data), .star rNotDigit, numFR, optMult],
    rCat [rStr ("revenu".data), .star rNotDigit, numFR, optMult],
    rCat [rStr ("gagne".data), .star rNotDigit, numFR, optMult] ]

/-- `mensuel_patterns`, in source order:
1. `NUM_FR\s*([kKmM])?\s*[€$]?\s*(?:par\s+mois|\/mois|mensuel)`
2. `NUM_FR\s*[€$]\s*net` -/
def mensuel_patterns : List RE :=
  [ rCat [numFR, optMult, .star rSpace, .opt clsEuro, .star rSpace, perMonth],
    rCat [numFR, .star rSpace, clsEuro, .star rSpace, rStr ("net".data)] ]

/-- `epargne_patterns`, in source order:
1. `épargn\w*[^\d]*NUM_FR\s*([kKmM])?\s*[€$]?\s*(?:par\s+mois|\/mois|mensuel)`
2. `met\w*\s+(?:de\s+côté\s+)?NUM_FR\s*([kKmM])?\s*[€$]?\s*(?:par\s+mois|\/mois)`
3. `investis?\w*\s+NUM_FR\s*([kKmM])?\s*[€$]?\s*(?:par\s+mois|\/mois)` -/
def epargne_patterns : List RE :=
  [ rCat [rStr ("épargn".data), .star rWordC, .star rNotDigit, numFR, optMult,
      .star rSpace, .opt clsEuro, .star rSpace, perMonth],
    rCat [rStr ("met".data), .star rWordC, rPlus rSpace,
      .opt (rCat [rStr ("de".data), rPlus rSpace, rStr ("côté".data), rPlus rSpace]),
      numFR, optMult, .star rSpace, .opt clsEuro, .star rSpace, perMonthShort],
    rCat [rStr ("investi".data), .opt (rChar 's'), .star rWordC, rPlus rSpace,
      numFR, optMult, .star rSpace, .opt clsEuro, .star rSpace, perMonthShort] ]

/-- `ans?` tail used by the duration and age patterns. -/
def ansOpt : RE := rCat [rStr ("an".data), .opt (rChar 's')]

/-- `duree_patterns`, in source order:
1. `(?:depuis|en|sur|pendant)\s+(\d+)\s*ans?`
2. `(\d+)\s*ans?\s+(?:plus\s+tard|après|de\s+travail|d\'investissement|d\'épargne)`
3. `ça\s+fait\s+(\d+)\s*ans?`
4. `il\s+y\s+a\s+(\d+)\s*ans?` -/
def duree_patterns : List RE :=
  [ rCat [rAlt [rStr ("depuis".data), rStr ("en".data), rStr ("sur".data),
      rStr ("pendant".data)], rPlus rSpace, .grp 1 (rPlus rDigit), .star rSpace,
      ansOpt],
    rCat [.grp 1 (rPlus rDigit), .star rSpace, ansOpt, rPlus rSpace,
      rAlt [rCat [rStr ("plus".data), rPlus rSpace, rStr ("tard".data)],
        rStr ("après".data),
        rCat [rStr ("de".data), rPlus rSpace, rStr ("travail".data)],
        rCat [rChar 'd', rChar apos, rStr ("investissement".data)],
        rCat [rChar 'd', rChar apos, rStr ("épargne".data)]]],
    rCat [rStr ("ça".data), rPlus rSpace, rStr ("fait".data), rPlus rSpace,
      .grp 1 (rPlus rDigit), .star rSpace, ansOpt],
    rCat [rStr ("il".data), rPlus rSpace, rChar 'y', rPlus rSpace, rChar 'a',
      rPlus rSpace, .grp 1 (rPlus rDigit), .star rSpace, ansOpt] ]

/-- `age_patterns`, in source order:
1. `j'?ai\s+(\d{2})\s*ans`
2. `âgé(?:e)?\s+de\s+(\d{2})\s*ans`
3. `âge\s*:?\s*(\d{2})`
4. `(\d{2})\s*[aA]\s*[,\.]`
5. `^(\d{2})\s*ans\b` -/
def age_patterns : List RE :=
  [ rCat [rChar 'j', .opt (rChar apos), rStr ("ai".data), rPlus rSpace,
      .grp 1 (rRep2 rDigit), .star rSpace, rStr ("ans".data)],
    rCat [rStr ("âgé".data), .opt (rChar 'e'), rPlus rSpace, rStr ("de".data),
      rPlus rSpace, .grp 1 (rRep2 rDigit), .star rSpace, rStr ("ans".data)],
    rCat [rStr ("âge".data), .star rSpace, .opt (rChar ':'), .star rSpace,
      .grp 1 (rRep2 rDigit)],
    rCat [.grp 1 (rRep2 rDigit), .star rSpace,
      .cls (fun c => c = 'a' || c = 'A'), .star rSpace, clsDot],
    rCat [.bol, .grp 1 (rRep2 rDigit), .star rSpace, rStr ("ans".data), .wordB] ]

/-! ## Numeric parsing in `extract_financial_data` -/

/-- The cleanup `num_str.replace(NBSP, "").replace(" ", "").replace(",", ".")`. -/
def cleanNum (cs : List Char) : List Char :=
  (cs.filter (fun c => c ≠ ' ' && c ≠ Char.ofNat 0xa0)).map
    (fun c => if c = ',' then '.' else c)

def digitsVal (cs : List Char) : Nat :=
  cs.foldl (fun a c => a * 10 + (c.toNat - 48)) 0

/-- Python `float` on the decimal strings produced by the patterns, kept
exact: the result is a pair `(numerator, fracDigits)` denoting
`numerator / 10 ^ fracDigits`.  `none` models `ValueError`. -/
def parseDec (cs : List Char) : Option (Nat × Nat) :=
  if cs.all (fun c => pyDigit c || c = '.') && cs.count '.' ≤ 1 &&
      cs.any pyDigit then
    let ip := cs.takeWhile (fun c => c ≠ '.')
    let rest := cs.dropWhile (fun c => c ≠ '.')
    match rest with
    | [] => some (digitsVal ip, 0)
    | _ :: fp => some (digitsVal ip * 10 ^ fp.length + digitsVal fp, fp.length)
  else none

/-- Multiplier for a `[kKmM]` capture (`k` ×1000, `m` ×1000000). -/
def multOf (mc : List Char) : Nat :=
  match mc with
  | [c] => if lowerChar c = 'k' then 1000 else if lowerChar c = 'm' then 1000000 else 1
  | _ => 1

/-- One `re.findall` match of an amount pattern, reduced to the appended
integer amount: parse group 1 with the optional group-2 multiplier, keep
it only within the plausibility bound `100 ≤ amount ≤ 100000000`, and
truncate to an integer (`int(amount)`). -/
def amountOfCaps (caps : Caps) : Option Nat :=
  let num := cleanNum ((getCap caps 1).getD [])
  let mult := (getCap caps 2).getD []
  match parseDec num with
  | none => none
  | some (v, f) =>
    let mul := if mult = [] then 1 else multOf mult
    if 100 * 10 ^ f ≤ v * mul && v * mul ≤ 100000000 * 10 ^ f then
      some (v * mul / 10 ^ f)
    else none

/-- `amounts_found`: every match of every amount pattern, in pattern order. -/
def amountsFound (text : List Char) : List Nat :=
  amount_patterns.foldl
    (fun acc r => acc ++ (findAll r text).filterMap amountOfCaps) []

def insertDesc (x : Nat) : List Nat → List Nat
  | [] => [x]
  | y :: ys => if x ≥ y then x :: y :: ys else y :: insertDesc x ys

/-- `sorted(..., reverse=True)`. -/
def sortDesc : List Nat → List Nat
  | [] => []
  | x :: xs => insertDesc x (sortDesc xs)

/-- `parse_french_number(num_str, mult_str)` from `ai.py`: strip thousand
separators, normalise the decimal comma, apply the magnitude suffix and
truncate (`int(float(cleaned) * multiplier)`). -/
def parse_french_number (numStr multStr : List Char) : Option Nat :=
  let cleaned := cleanNum numStr
  let mul := if multStr = [] then 1 else multOf multStr
  (parseDec cleaned).map (fun p => p.1 * mul / 10 ^ p.2)

/-- Group 1 of a search result (always present in the field patterns). -/
def capNum (caps : Caps) : List Char := (getCap caps 1).getD []

/-- The `match.group(2) if match.lastindex >= 2 else ""` idiom: group 2 is
the last group of every field pattern, so `lastindex >= 2` holds exactly
when group 2 participated in the match. -/
def capMult (caps : Caps) : List Char := (getCap caps 2).getD []

/-- The patrimoine loop: first pattern whose match parses to a value with
`value and value >= 100` (Python truthiness: `None` and `0` fail). -/
def patrimoineFromPatterns : List RE → List Char → Option Nat
  | [], _ => none
  | r :: rest, text =>
    match search r text with
    | some caps =>
      match parse_french_number (capNum caps) (capMult caps) with
      | some v => if 100 ≤ v then some v else patrimoineFromPatterns rest text
      | none => patrimoineFromPatterns rest text
    | none => patrimoineFromPatterns rest text

/-- The annual-income loop: first pattern whose match parses to a truthy
amount; an amount below 10000 is treated as monthly and multiplied by 12. -/
def revenusFromPatterns : List RE → List Char → Option Nat
  | [], _ => none
  | r :: rest, text =>
    match search r text with
    | some caps =>
      match parse_french_number (capNum caps) (capMult caps) with
      | some v =>
        if v ≠ 0 then some (if v < 10000 then v * 12 else v)
        else revenusFromPatterns rest text
      | none => revenusFromPatterns rest text
    | none => revenusFromPatterns rest text

/-- The monthly-income loop (`value and value >= 100`). -/
def mensuelFromPatterns : List RE → List Char → Option Nat
  | [], _ => none
  | r :: rest, text =>
    match search r text with
    | some caps =>
      match parse_french_number (capNum caps) (capMult caps) with
      | some v => if 100 ≤ v then some v else mensuelFromPatterns rest text
      | none => mensuelFromPatterns rest text
    | none => mensuelFromPatterns rest text

/-- The monthly-savings loop (`value and value >= 50`). -/
def epargneFromPatterns : List RE → List Char → Option Nat
  | [], _ => none
  | r :: rest, text =>
    match search r text with
    | some caps =>
      match parse_french_number (capNum caps) (capMult caps) with
      | some v => if 50 ≤ v then some v else epargneFromPatterns rest text
      | none => epargneFromPatterns rest text
    | none => epargneFromPatterns rest text

/-- The duration loop: `int(match.group(1))`, kept when `1 <= years <= 50`. -/
def dureeFromPatterns : List RE → List Char → Option Nat
  | [], _ => none
  | r :: rest, text =>
    match search r text with
    | some caps =>
      let years := digitsVal (capNum caps)
      if 1 ≤ years && years ≤ 50 then some years
      else dureeFromPatterns rest text
    | none => dureeFromPatterns rest text

/-- The age loop: kept when `18 <= age <= 70` and the value differs from
the previously extracted duration (the false-positive guard). -/
def ageFromPatterns : List RE → List Char → Option Nat → Option Nat
  | [], _, _ => none
  | r :: rest, text, duree =>
    match search r text with
    | some caps =>
      let age := digitsVal (capNum caps)
      if 18 ≤ age && age ≤ 70 && duree ≠ some age then some age
      else ageFromPatterns rest text duree
    | none => ageFromPatterns rest text duree

/-- The result record of `extract_financial_data`. -/
structure Extracted where
  amounts : List Nat
  patrimoine : Option Nat
  revenus_annuels : Option Nat
  revenus_mensuels : Option Nat
  epargne_mensuelle : Option Nat
  age : Option Nat
  duree_annees : Option Nat
deriving DecidableEq, Repr

def emptyExtracted : Extracted :=
  { amounts := [], patrimoine := none, revenus_annuels := none,
    revenus_mensuels := none, epargne_mensuelle := none, age := none,
    duree_annees := none }

/-- `extract_financial_data(text)` (`ai.py`, lines 17-200).  Amount
patterns run case-insensitively over the raw text; the field patterns run
over `text.lower()`; the duration is extracted before the age so that the
age loop can discard a numerically coinciding candidate. -/
def extract_financial_data (text : List Char) : Extracted :=
  if text = [] then emptyExtracted
  else
    let textLower := pyLower text
    let duree := dureeFromPatterns duree_patterns textLower
    { amounts := sortDesc (amountsFound text).dedup,
      patrimoine := patrimoineFromPatterns patrimoine_patterns textLower,
      revenus_annuels := revenusFromPatterns revenus_patterns textLower,
      revenus_mensuels := mensuelFromPatterns mensuel_patterns textLower,
      epargne_mensuelle := epargneFromPatterns epargne_patterns textLower,
      age := ageFromPatterns age_patterns textLower duree,
      duree_annees := duree }

/-! ## Items and the content origin

An Item (`post` dict) carries an opaque identity, the raw text fields and
the enrichment fields added later (absent fields are `none`).  The origin
(`fetch_subreddit_posts` / `fetch_top_comment` in `reddit.py`) is an
external collaborator and is modelled as an environment record. -/

structure Post where
  id : Nat
  title : String
  selftext : String
  comment_body : Option String := none
  category : Option String := none
  tags : Option (List String) := none
  summary : Option String := none
  consensus : Option String := none
  key_advice : Option String := none
  extracted_data : Option Extracted := none
deriving DecidableEq, Repr

structure OriginEnv where
  /-- `fetch_subreddit_posts(subreddit, time_filter, limit)`. -/
  fetchPosts : String → String → Nat → List Post
  /-- `fetch_top_comment(post_id, subreddit)`: the top reply body, if any.
  (The reply record never contains an `id` key, so merging it into the
  post dict cannot change the identity of the post.) -/
  fetchTop : Nat → String → Option String

/-- `post.update(top_comment)` when the reply fetch succeeded. -/
def applyTop (p : Post) (top : Option String) : Post :=
  match top with
  | none => p
  | some body => { p with comment_body := some body }

/-! ## `scheduler.py` -/

/-- `TIME_PERIODS` (`scheduler.py`, lines 23-28). -/
def TIME_PERIODS : List (String × String) :=
  [("day", "Last 24 hours"), ("week", "Last week"),
   ("month", "Last month"), ("year", "Last year")]

/-- `POSTS_PER_DAY_PER_SUBREDDIT` (`scheduler.py`, line 16). -/
def POSTS_PER_DAY_PER_SUBREDDIT : Nat := 500

/-- The body of the `for post in fetch_subreddit_posts(...)` loop inside
`fetch_batch`: skip ids already in `existing_ids`, merge the top comment,
append, and break once the batch holds `limit` posts.  `limit` here is the
number of posts still to collect, so the Python break condition
`len(new_posts) >= limit` is `limit ≤ 1` after an append. -/
def fetchLoop (env : OriginEnv) (subreddit : String) (existing : List Nat)
    (limit : Nat) : List Post → List Post
  | [] => []
  | p :: rest =>
    if p.id ∈ existing then fetchLoop env subreddit existing limit rest
    else
      let p2 := applyTop p (env.fetchTop p.id subreddit)
      if limit ≤ 1 then [p2]
      else p2 :: fetchLoop env subreddit existing (limit - 1) rest

/-- `fetch_batch(subreddit, time_filter, limit, existing_ids)`
(`scheduler.py`, lines 50-73).  Pure in the model: it reads the origin and
the known-ID set but mutates neither. -/
def fetch_batch (env : OriginEnv) (subreddit timeFilter : String) (limit : Nat)
    (existing : List Nat) : List Post :=
  fetchLoop env subreddit existing limit (env.fetchPosts subreddit timeFilter limit)

/-- Per-source loop state of `run_scheduler`: the current window index,
the number of posts fetched so far today, the run-scoped known-ID set and
the posts accumulated for this source. -/
structure SubState where
  periodIndex : Nat
  fetchedToday : Nat
  existing : List Nat
  newPosts : List Post
deriving DecidableEq, Repr

/-- One iteration of the `while` body in `run_scheduler` (lines 110-133):
fetch a batch from the current window with the remaining budget; a
non-empty batch is accumulated and its ids enter the known-ID set; an
empty batch advances the window index. -/
def subStep (env : OriginEnv) (subreddit : String) (budget : Nat)
    (st : SubState) : SubState :=
  let tf := (TIME_PERIODS.getD st.periodIndex ("", "")).1
  let remaining := budget - st.fetchedToday
  let batch := fetch_batch env subreddit tf remaining st.existing
  if batch.isEmpty then { st with periodIndex := st.periodIndex + 1 }
  else
    { st with
      newPosts := st.newPosts ++ batch,
      fetchedToday := st.fetchedToday + batch.length,
      existing := st.existing ++ batch.map (fun p => p.id) }

/-- The `while` guard: `posts_fetched_today < POSTS_PER_DAY_PER_SUBREDDIT
and period_index < len(TIME_PERIODS)`. -/
def subGuard (budget : Nat) (st : SubState) : Bool :=
  st.fetchedToday < budget && st.periodIndex < TIME_PERIODS.length

/-- The `while` loop, fuelled.  Every iteration either increases
`fetchedToday` (bounded by the budget) or increments `periodIndex`
(bounded by the window count), so `subFuel` below is always sufficient. -/
def subredditLoop (env : OriginEnv) (subreddit : String) (budget : Nat) :
    Nat → SubState → SubState
  | 0, st => st
  | fuel + 1, st =>
    if subGuard budget st then
      subredditLoop env subreddit budget fuel (subStep env subreddit budget st)
    else st

def subFuel (budget : Nat) : Nat := budget + TIME_PERIODS.length + 1

/-- The whole per-source portion of a run: the loop started on the
checkpointed window index with a fresh daily counter. -/
def subredditRun (env : OriginEnv) (subreddit : String) (budget : Nat)
    (periodIndex : Nat) (existing : List Nat) : SubState :=
  subredditLoop env subreddit budget (subFuel budget)
    { periodIndex := periodIndex, fetchedToday := 0, existing := existing,
      newPosts := [] }

/-- Per-source checkpoint record (`subreddit_progress` entries). -/
structure SubProgress where
  fetched : Nat
  period_index : Nat
deriving DecidableEq, Repr

/-- `progress["subreddit_progress"].get(sub, default)`. -/
def lookupProgress (l : List (String × SubProgress)) (sub : String) : SubProgress :=
  (((l.find? (fun e => e.1 = sub)).map (fun e => e.2)).getD
    { fetched := 0, period_index := 0 })

/-- Dict update `progress["subreddit_progress"][sub] = v`. -/
def setProgress (l : List (String × SubProgress)) (sub : String)
    (v : SubProgress) : List (String × SubProgress) :=
  (sub, v) :: l.filter (fun e => e.1 ≠ sub)

/-- The scheduler checkpoint (`scheduler_progress.json`). -/
structure Progress where
  last_run : Option String
  total_fetched : Nat
  subreddit_progress : List (String × SubProgress)
deriving DecidableEq, Repr

/-- The `for subreddit in SUBREDDITS` loop of `run_scheduler`: threads the
run-scoped known-ID set through the sources, accumulates `all_new_posts`
and updates each checkpoint entry. -/
def runSubsLoop (env : OriginEnv) (budget : Nat) :
    List String → List Nat × List Post × List (String × SubProgress) →
    List Nat × List Post × List (String × SubProgress)
  | [], acc => acc
  | sub :: rest, (existing, allNew, prog) =>
    let sp := lookupProgress prog sub
    let st := subredditRun env sub budget sp.period_index existing
    runSubsLoop env budget rest
      (st.existing, allNew ++ st.newPosts,
        setProgress prog sub
          { fetched := sp.fetched + st.fetchedToday,
            period_index := st.periodIndex })

/-! ## `backend/processors/ai.py`: retry wrapper and enrichment -/

/-- `needle in hay` on strings. -/
def containsSub (needle : List Char) : List Char → Bool
  | [] => needle.isEmpty
  | c :: t => needle.isPrefixOf (c :: t) || containsSub needle t

/-- `"429" in error_str or "rate" in error_str.lower()` (`ai.py`, line 213). -/
def isRateLimit (e : String) : Bool :=
  containsSub ("429".data) e.data || containsSub ("rate".data) (pyLower e.data)

/-- Outcome of `retry_with_backoff`, together with the backoff delays it
slept through, in order.  `noAttempt` is the Python fall-through (the
`for` loop body never runs, so the wrapper returns `None`); it can only
happen with `max_retries = 0`. -/
inductive RetryResult (α : Type) where
  | ok (a : α) (delays : List Nat)
  | raised (e : String) (delays : List Nat)
  | noAttempt
deriving DecidableEq, Repr

/-- The `for attempt in range(max_retries)` loop of `retry_with_backoff`
(`ai.py`, lines 203-226): any exception is retried until the final
attempt re-raises; a rate-limit error sleeps `base * 3 ^ attempt`, any
other error sleeps `base * 2 ^ attempt`. -/
def retryLoop {α : Type} (f : Nat → Except String α) (base : Nat) :
    Nat → Nat → RetryResult α
  | 0, _ => .noAttempt
  | remaining + 1, attempt =>
    match f attempt with
    | .ok a => .ok a []
    | .error e =>
      match remaining with
      | 0 => .raised e []
      | r + 1 =>
        let d := if isRateLimit e then base * 3 ^ attempt else base * 2 ^ attempt
        match retryLoop f base (r + 1) (attempt + 1) with
        | .ok a ds => .ok a (d :: ds)
        | .raised e2 ds => .raised e2 (d :: ds)
        | .noAttempt => .noAttempt

/-- `retry_with_backoff(func, max_retries=5, base_delay=2)`. -/
def retry_with_backoff {α : Type} (f : Nat → Except String α)
    (maxRetries : Nat := 5) (base : Nat := 2) : RetryResult α :=
  retryLoop f base maxRetries 0

/-- `CATEGORIES` (`config.py`). -/
def CATEGORIES : List String :=
  [("ETF"), ("Immobilier"), ("Crypto"), ("Epargne"), ("Fiscalite"),
   ("Actions"), ("Strategie"), ("Milestone"), ("Question"), ("Retour XP"),
   ("Budget"), ("Retraite"), ("Credit"), ("Carriere"), ("Actualite"),
   ("Autre")]

/-- The parsed JSON object of the AI reply; absent keys are `none`
(`ai_result.get(key, default)`). -/
structure AiJson where
  category : Option String
  tags : Option (List String)
  summary : Option String
  consensus : Option String
  key_advice : Option String
deriving DecidableEq, Repr

/-- The AI collaborator: whether `get_ai_client` found credentials, the
per-post per-attempt outcome of the chat-completion call, and the JSON
parser (`json.loads`; `none` covers both a decode error and a reply that
is valid JSON but not an object, both of which raise in the source and
land in except-branches that assign identical fields). -/
structure AiEnv where
  clientConfigured : Bool
  call : Post → Nat → Except String String
  parseJson : String → Option AiJson

/-- Python `str.strip()`. -/
def pyStrip (s : List Char) : List Char :=
  ((s.dropWhile pySpace).reverse.dropWhile pySpace).reverse

/-- Split off everything before the first occurrence of `sep` and return
the remainder, or `none` when `sep` does not occur. -/
def breakOnSub (sep : List Char) : List Char → Option (List Char × List Char)
  | [] => if sep.isEmpty then some ([], []) else none
  | c :: t =>
    if sep.isPrefixOf (c :: t) then some ([], (c :: t).drop sep.length)
    else
      match breakOnSub sep t with
      | some (a, b) => some (c :: a, b)
      | none => none

/-- `s.split(sep)[1]` for a string known to start with `sep`. -/
def pySplitIdx1 (sep s : List Char) : List Char :=
  match breakOnSub sep s with
  | none => []
  | some (_, rest) =>
    match breakOnSub sep rest with
    | some (a, _) => a
    | none => rest

/-- The markdown-fence handling of the AI reply (`ai.py`, lines 324-327). -/
def handleFences (s : List Char) : List Char :=
  if ("```".data).isPrefixOf s then
    let part := pySplitIdx1 ("```".data) s
    if ("json".data).isPrefixOf part then part.drop 4 else part
  else s

/-- `f"{title} {selftext} {comment_body}"` over the full, untruncated
fields (`ai.py`, line 341). -/
def fullText (p : Post) : List Char :=
  p.title.data ++ [' '] ++ p.selftext.data ++ [' '] ++ (p.comment_body.getD ("")).data

/-- The two identical except-branches of `categorize_and_summarize`: the
default category, empty tags and summary, and the deterministic
extraction still performed. -/
def aiFallback (p : Post) : Post :=
  { p with
    category := some ("Autre"),
    tags := some [],
    summary := some (""),
    extracted_data := some (extract_financial_data (fullText p)) }

/-- `categorize_and_summarize(post)` (`ai.py`, lines 258-362).  With no
configured client the post is returned unchanged.  Otherwise the API call
runs under `retry_with_backoff`; on success the reply is stripped,
de-fenced and parsed, the category is validated against `CATEGORIES`, and
the deterministic extraction is attached; every failure lands in
`aiFallback`.  (A `noAttempt` wrapper result makes the source read
`response.choices` on `None`, which raises into the same except-branch.) -/
def categorize_and_summarize (ai : AiEnv) (p : Post) : Post :=
  if !ai.clientConfigured then p
  else
    match retry_with_backoff (ai.call p) 5 2 with
    | .ok txt _ =>
      let t := handleFences (pyStrip txt.data)
      match ai.parseJson (String.mk t) with
      | some j =>
        let c := j.category.getD ("Autre")
        { p with
          category := some (if c ∈ CATEGORIES then c else ("Autre")),
          tags := some (j.tags.getD []),
          summary := some (j.summary.getD ("")),
          consensus := some (j.consensus.getD ("")),
          key_advice := some (j.key_advice.getD ("")),
          extracted_data := some (extract_financial_data (fullText p)) }
      | none => aiFallback p
    | .raised _ _ => aiFallback p
    | .noAttempt => aiFallback p

/-- `process_posts(posts, ...)`: enrich each post in order. -/
def process_posts (ai : AiEnv) (posts : List Post) : List Post :=
  posts.map (categorize_and_summarize ai)

/-! ## `backend/db/nocodb.py`: persistence -/

structure PushStats where
  pushed : Nat
  skipped : Nat
  errors : Nat
deriving DecidableEq, Repr

/-- The persistence collaborator: configuration state, the snapshot of
known ids that `push_posts` re-reads via `get_existing_post_ids`, and the
success of each `push_post` append. -/
structure StoreEnv where
  configured : Bool
  existingIds : List Nat
  appendOk : Nat → Bool

/-- The `for post in posts` loop of `push_posts` (lines 134-145): returns
the ids actually submitted to `push_post` (in order) and the stats. -/
def pushLoop (store : StoreEnv) : List Post → PushStats → List Nat × PushStats
  | [], stats => ([], stats)
  | p :: rest, stats =>
    if p.id ∈ store.existingIds then
      pushLoop store rest { stats with skipped := stats.skipped + 1 }
    else
      let next :=
        if store.appendOk p.id then { stats with pushed := stats.pushed + 1 }
        else { stats with errors := stats.errors + 1 }
      let r := pushLoop store rest next
      (p.id :: r.1, r.2)

/-- `push_posts(posts)` (`nocodb.py`, lines 119-147). -/
def push_posts (store : StoreEnv) (posts : List Post) : List Nat × PushStats :=
  if !store.configured then ([], { pushed := 0, skipped := 0, errors := 0 })
  else pushLoop store posts { pushed := 0, skipped := 0, errors := 0 }

/-! ## `run_scheduler` -/

/-- Result of one scheduler invocation: the saved checkpoint, the
accumulated new posts, the ids submitted to `push_post` and the push
stats. -/
structure RunResult where
  progress : Progress
  allNewPosts : List Post
  pushedIds : List Nat
  stats : PushStats

/-- `run_scheduler(dry_run)` (`scheduler.py`, lines 76-171).  `initialIds`
is the known-ID set returned by `get_existing_post_ids()` at run start;
`store.existingIds` is the snapshot `push_posts` re-reads later.  The
re-entrancy guard makes a same-day second invocation a no-op. -/
def run_scheduler (env : OriginEnv) (ai : AiEnv) (store : StoreEnv)
    (subs : List String) (today : String) (initialIds : List Nat)
    (progress : Progress) (dryRun : Bool) : RunResult :=
  if progress.last_run = some today then
    { progress := progress, allNewPosts := [], pushedIds := [],
      stats := { pushed := 0, skipped := 0, errors := 0 } }
  else
    let r := runSubsLoop env POSTS_PER_DAY_PER_SUBREDDIT subs
      (initialIds, [], progress.subreddit_progress)
    let pushed :=
      if !r.2.1.isEmpty && !dryRun then push_posts store (process_posts ai r.2.1)
      else ([], { pushed := 0, skipped := 0, errors := 0 })
    { progress :=
        { last_run := some today,
          total_fetched := progress.total_fetched + r.2.1.length,
          subreddit_progress := r.2.2 },
      allNewPosts := r.2.1, pushedIds := pushed.1, stats := pushed.2 }

/-! ## Auxiliary definitions for the statements -/

/-- Number of posts in an origin page that are new with respect to a
known-ID set (the unlimited-supply hypothesis of the budget property). -/
def countNew (posts : List Post) (existing : List Nat) : Nat :=
  (posts.filter (fun p => !(decide (p.id ∈ existing)))).length

/-- The raw (pre-conversion) amount of the first annual-income pattern
whose match parses to a truthy value: the same loop as
`revenusFromPatterns` with the monthly-to-annual conversion stripped out,
used to characterise that conversion. -/
def firstRevenusAmount : List RE → List Char → Option Nat
  | [], _ => none
  | r :: rest, text =>
    match search r text with
    | some caps =>
      match parse_french_number (capNum caps) (capMult caps) with
      | some v => if v ≠ 0 then some v else firstRevenusAmount rest text
      | none => firstRevenusAmount rest text
    | none => firstRevenusAmount rest text

/-! ## Concrete witnesses -/

/-- A raw post as delivered by the origin. -/
def mkPost (n : Nat) : Post := { id := n, title := "t", selftext := "s" }

/-- An origin whose freshest window holds exactly one post (id 1) and
whose older windows are empty. -/
def cEnvA : OriginEnv :=
  { fetchPosts := fun _ tf _ => if tf = "day" then [mkPost 1] else [],
    fetchTop := fun _ _ => none }

/-- An origin whose freshest window holds posts 1 and 2. -/
def cEnvB : OriginEnv :=
  { fetchPosts := fun _ tf _ => if tf = "day" then [mkPost 1, mkPost 2] else [],
    fetchTop := fun _ _ => none }

/-- An origin with unlimited supply: every page holds one more fresh post
than was asked for. -/
def cEnvU : OriginEnv :=
  { fetchPosts := fun _ _ limit => (List.range (limit + 1)).map (fun i => mkPost (10 + i)),
    fetchTop := fun _ _ => some ("c") }

/-- A loop state at the first window with nothing fetched yet. -/
def stA : SubState :=
  { periodIndex := 0, fetchedToday := 0, existing := [], newPosts := [] }

def p0 : Post := mkPost 1

/-- An attempt oracle that fails once with a non-rate-limit error and then
succeeds. -/
def f0 : Nat → Except String Nat :=
  fun a => if a = 0 then .error ("boom") else .ok 7

/-- An attempt oracle that always signals a rate limit. -/
def fRL : Nat → Except String Nat := fun _ => .error ("429 rate limit")

/-- A configured AI collaborator whose call always raises a
non-rate-limit error. -/
def cAiFail : AiEnv :=
  { clientConfigured := true, call := fun _ _ => .error ("boom"),
    parseJson := fun _ => none }

/-- An unconfigured AI collaborator (`get_ai_client` returned `None`). -/
def cAiNone : AiEnv :=
  { clientConfigured := false, call := fun _ _ => .error ("x"),
    parseJson := fun _ => none }

/-- A configured store that knows nothing and accepts every append. -/
def cStoreT : StoreEnv :=
  { configured := true, existingIds := [], appendOk := fun _ => true }

/-- The input of the financial-extraction determinism test:
`"J'ai 28 ans et 150k€ de patrimoine, j'épargne 500€ par mois"`. -/
def c8text : List Char :=
  ("J".data) ++ [apos] ++ ("ai 28 ans et 150k€ de patrimoine, j".data) ++
    [apos] ++ ("épargne 500€ par mois".data)

/-- The input of the age/duration disambiguation test:
`"depuis 28 ans, j'ai 28 ans"`. -/
def c9text : List Char :=
  ("depuis 28 ans, j".data) ++ [apos] ++ ("ai 28 ans".data)

/-! ## Helper lemmas -/

theorem applyTop_id (p : Post) (t : Option String) : (applyTop p t).id = p.id := by
  cases t <;> rfl

/-- Every post returned by the batch loop was new with respect to the
known-ID set it was given. -/
theorem fetchLoop_not_mem (env : OriginEnv) (sub : String) :
    ∀ (posts : List Post) (existing : List Nat) (limit : Nat) (p : Post),
      p ∈ fetchLoop env sub existing limit posts → p.id ∉ existing := by
  intro posts
  induction posts with
  | nil => intro existing limit p hp; simp [fetchLoop] at hp
  | cons q rest ih =>
    intro existing limit p hp
    rw [fetchLoop] at hp
    by_cases hq : q.id ∈ existing
    · rw [if_pos hq] at hp
      exact ih existing limit p hp
    · rw [if_neg hq] at hp
      by_cases hl : limit ≤ 1
      · rw [if_pos hl] at hp
        rcases List.mem_singleton.mp hp with rfl
        rw [applyTop_id]; exact hq
      · rw [if_neg hl] at hp
        rcases List.mem_cons.mp hp with rfl | hmem
        · rw [applyTop_id]; exact hq
        · exact ih existing (limit - 1) p hmem

theorem fetch_batch_not_mem (env : OriginEnv) (sub tf : String) (limit : Nat)
    (existing : List Nat) (p : Post) (hp : p ∈ fetch_batch env sub tf limit existing) :
    p.id ∉ existing :=
  fetchLoop_not_mem env sub _ existing limit p hp

/-- When the origin page holds at least `limit` new posts, the batch loop
collects exactly `limit` of them (the budget-driven break). -/
theorem fetchLoop_length_eq (env : OriginEnv) (sub : String) :
    ∀ (posts : List Post) (existing : List Nat) (limit : Nat),
      1 ≤ limit → limit ≤ countNew posts existing →
      (fetchLoop env sub existing limit posts).length = limit := by
  intro posts
  induction posts with
  | nil =>
    intro existing limit h1 hcount
    simp [countNew] at hcount
    omega
  | cons q rest ih =>
    intro existing limit h1 hcount
    rw [fetchLoop]
    by_cases hq : q.id ∈ existing
    · rw [if_pos hq]
      apply ih existing limit h1
      simpa [countNew, List.filter_cons, hq] using hcount
    · rw [if_neg hq]
      by_cases hl : limit ≤ 1
      · rw [if_pos hl]
        simp; omega
      · rw [if_neg hl]
        have hrest : limit - 1 ≤ countNew rest existing := by
          simp only [countNew, List.filter_cons, hq] at hcount ⊢
          simp at hcount
          omega
        have := ih existing (limit - 1) (by omega) hrest
        simp [this]
        omega

/-- If a batch came back shorter than its limit, the loop scanned the
whole page; a known-ID set that additionally covers every returned post
therefore yields an empty batch on the same page. -/
theorem fetchLoop_absorbed (env env2 : OriginEnv) (sub sub2 : String) :
    ∀ (posts : List Post) (existing : List Nat) (limit : Nat)
      (ids2 : List Nat) (limit2 : Nat),
      (fetchLoop env sub existing limit posts).length < limit →
      (∀ x ∈ existing, x ∈ ids2) →
      (∀ p ∈ fetchLoop env sub existing limit posts, p.id ∈ ids2) →
      fetchLoop env2 sub2 ids2 limit2 posts = [] := by
  intro posts
  induction posts with
  | nil => intro _ _ _ _ _ _ _; rfl
  | cons q rest ih =>
    intro existing limit ids2 limit2 hshort hsub hcover
    rw [fetchLoop] at hshort hcover
    rw [fetchLoop]
    by_cases hq : q.id ∈ existing
    · rw [if_pos hq] at hshort hcover
      rw [if_pos (hsub q.id hq)]
      exact ih existing limit ids2 limit2 hshort hsub hcover
    · rw [if_neg hq] at hshort hcover
      by_cases hl : limit ≤ 1
      · rw [if_pos hl] at hshort
        simp at hshort
        omega
      · rw [if_neg hl] at hshort hcover
        have hqin : q.id ∈ ids2 := by
          have := hcover (applyTop q (env.fetchTop q.id sub)) (by simp)
          rwa [applyTop_id] at this
        rw [if_pos hqin]
        apply ih existing (limit - 1) ids2 limit2
        · simp at hshort
          omega
        · exact hsub
        · intro p hp; exact hcover p (List.mem_cons_of_mem _ hp)

theorem subStep_periodIndex_le (env : OriginEnv) (sub : String) (budget : Nat)
    (st : SubState) : st.periodIndex ≤ (subStep env sub budget st).periodIndex := by
  rw [subStep]
  split <;> simp

theorem subredditLoop_periodIndex_le (env : OriginEnv) (sub : String)
    (budget : Nat) : ∀ (fuel : Nat) (st : SubState),
    st.periodIndex ≤ (subredditLoop env sub budget fuel st).periodIndex := by
  intro fuel
  induction fuel with
  | zero => intro st; simp [subredditLoop]
  | succ n ih =>
    intro st
    rw [subredditLoop]
    split
    · exact le_trans (subStep_periodIndex_le env sub budget st) (ih _)
    · exact le_refl _

theorem subredditLoop_guard_false (env : OriginEnv) (sub : String)
    (budget : Nat) (fuel : Nat) (st : SubState)
    (h : subGuard budget st = false) :
    subredditLoop env sub budget fuel st = st := by
  cases fuel with
  | zero => rfl
  | succ n => rw [subredditLoop, h]; simp

/-- The run-scoped invariant of the per-source loop: a set of ids covered
by the known-ID set stays covered, and no accumulated new post carries
one of them. -/
theorem subStep_inv (env : OriginEnv) (sub : String) (budget : Nat)
    (st : SubState) (S : List Nat)
    (hS : ∀ x ∈ S, x ∈ st.existing) (hN : ∀ p ∈ st.newPosts, p.id ∉ S) :
    (∀ x ∈ S, x ∈ (subStep env sub budget st).existing) ∧
      (∀ p ∈ (subStep env sub budget st).newPosts, p.id ∉ S) := by
  rw [subStep]
  split
  · exact ⟨hS, hN⟩
  · refine ⟨fun x hx => List.mem_append_left _ (hS x hx), fun p hp => ?_⟩
    rcases List.mem_append.mp hp with h1 | h2
    · exact hN p h1
    · intro hpS
      exact fetch_batch_not_mem env sub _ _ _ p h2 (hS _ hpS)

theorem subredditLoop_inv (env : OriginEnv) (sub : String) (budget : Nat) :
    ∀ (fuel : Nat) (st : SubState) (S : List Nat),
      (∀ x ∈ S, x ∈ st.existing) → (∀ p ∈ st.newPosts, p.id ∉ S) →
      (∀ x ∈ S, x ∈ (subredditLoop env sub budget fuel st).existing) ∧
        (∀ p ∈ (subredditLoop env sub budget fuel st).newPosts, p.id ∉ S) := by
  intro fuel
  induction fuel with
  | zero => intro st S hS hN; exact ⟨hS, hN⟩
  | succ n ih =>
    intro st S hS hN
    rw [subredditLoop]
    split
    · rcases subStep_inv env sub budget st S hS hN with ⟨h1, h2⟩
      exact ih _ S h1 h2
    · exact ⟨hS, hN⟩

theorem subredditRun_inv (env : OriginEnv) (sub : String) (budget : Nat)
    (periodIndex : Nat) (existing : List Nat) (S : List Nat)
    (hS : ∀ x ∈ S, x ∈ existing) :
    (∀ x ∈ S, x ∈ (subredditRun env sub budget periodIndex existing).existing) ∧
      (∀ p ∈ (subredditRun env sub budget periodIndex existing).newPosts,
        p.id ∉ S) := by
  exact subredditLoop_inv env sub budget _ _ S hS (by intro p hp; simp at hp)

theorem runSubsLoop_inv (env : OriginEnv) (budget : Nat) :
    ∀ (subs : List String) (existing : List Nat) (allNew : List Post)
      (prog : List (String × SubProgress)) (S : List Nat),
      (∀ x ∈ S, x ∈ existing) → (∀ p ∈ allNew, p.id ∉ S) →
      (∀ p ∈ (runSubsLoop env budget subs (existing, allNew, prog)).2.1,
        p.id ∉ S) := by
  intro subs
  induction subs with
  | nil => intro existing allNew prog S hS hN p hp; exact hN p hp
  | cons sub rest ih =>
    intro existing allNew prog S hS hN
    rw [runSubsLoop]
    rcases subredditRun_inv env sub budget
      (lookupProgress prog sub).period_index existing S hS with ⟨h1, h2⟩
    apply ih _ _ _ S h1
    intro p hp
    rcases List.mem_append.mp hp with ha | hb
    · exact hN p ha
    · exact h2 p hb

theorem categorize_id (ai : AiEnv) (p : Post) :
    (categorize_and_summarize ai p).id = p.id := by
  rw [categorize_and_summarize]
  split
  · rfl
  · split
    · dsimp only
      split
      · rfl
      · rfl
    · rfl
    · rfl

theorem process_posts_ids (ai : AiEnv) (posts : List Post) :
    (process_posts ai posts).map (fun p => p.id) = posts.map (fun p => p.id) := by
  induction posts with
  | nil => rfl
  | cons q rest ih =>
    simp only [process_posts, List.map_cons] at ih ⊢
    rw [categorize_id, ih]

theorem pushLoop_ids_sub (store : StoreEnv) :
    ∀ (posts : List Post) (stats : PushStats) (x : Nat),
      x ∈ (pushLoop store posts stats).1 → x ∈ posts.map (fun p => p.id) := by
  intro posts
  induction posts with
  | nil => intro stats x hx; simp [pushLoop] at hx
  | cons q rest ih =>
    intro stats x hx
    rw [pushLoop] at hx
    by_cases hq : q.id ∈ store.existingIds
    · rw [if_pos hq] at hx
      exact List.mem_cons_of_mem _ (ih _ x hx)
    · rw [if_neg hq] at hx
      simp only at hx
      rcases List.mem_cons.mp hx with rfl | hmem
      · exact List.mem_cons_self _ _
      · exact List.mem_cons_of_mem _ (ih _ x hmem)

theorem push_posts_ids_sub (store : StoreEnv) (posts : List Post) (x : Nat)
    (hx : x ∈ (push_posts store posts).1) : x ∈ posts.map (fun p => p.id) := by
  rw [push_posts] at hx
  split at hx
  · simp at hx
  · exact pushLoop_ids_sub store posts _ x hx

/-- When every attempt in the window fails, the retry loop re-raises the
final error after sleeping the full backoff schedule. -/
theorem retryLoop_raised {α : Type} (f : Nat → Except String α)
    (e : Nat → String) (base : Nat) :
    ∀ (remaining attempt : Nat), 1 ≤ remaining →
      (∀ i, attempt ≤ i → i < attempt + remaining → f i = .error (e i)) →
      retryLoop f base remaining attempt =
        .raised (e (attempt + remaining - 1))
          ((List.range' attempt (remaining - 1)).map
            (fun i => if isRateLimit (e i) then base * 3 ^ i else base * 2 ^ i)) := by
  intro remaining
  induction remaining with
  | zero => intro attempt h1 _; exact absurd h1 (by omega)
  | succ r ih =>
    intro attempt h1 hf
    rw [retryLoop, hf attempt (le_refl _) (by omega)]
    cases r with
    | zero => simp
    | succ r2 =>
      have hrec := ih (attempt + 1) (by omega)
        (fun i hi1 hi2 => hf i (by omega) (by omega))
      simp only [hrec]
      have h3 : attempt + 1 + (r2 + 1) - 1 = attempt + (r2 + 1 + 1) - 1 := by omega
      rw [h3]
      have h4 : List.range' attempt (r2 + 1 + 1 - 1) =
          attempt :: List.range' (attempt + 1) (r2 + 1 - 1) := by
        have := List.range'_succ attempt (r2 + 1 - 1) 1
        simpa using this
      rw [h4, List.map_cons]

/-- The first pattern of the annual-income loop that produces a truthy
amount determines the stored value; the loop multiplies it by 12 exactly
when it is below 10000. -/
theorem revenusFromPatterns_eq_map (text : List Char) :
    ∀ pats : List RE,
      revenusFromPatterns pats text =
        (firstRevenusAmount pats text).map
          (fun v => if v < 10000 then v * 12 else v) := by
  intro pats
  induction pats with
  | nil => rfl
  | cons r rest ih =>
    rw [revenusFromPatterns, firstRevenusAmount]
    rcases hs : search r text with _ | caps
    · exact ih
    · dsimp only
      rcases hp : parse_french_number (capNum caps) (capMult caps) with _ | v
      · exact ih
      · dsimp only
        by_cases hv : v ≠ 0
        · rw [if_pos hv, if_pos hv]; rfl
        · rw [if_neg hv, if_neg hv]; exact ih

theorem subredditLoop_stop_after_step (env : OriginEnv) (sub : String)
    (budget fuel : Nat) (st : SubState) (hg : subGuard budget st = true)
    (hg2 : subGuard budget (subStep env sub budget st) = false) :
    subredditLoop env sub budget (fuel + 1) st = subStep env sub budget st := by
  rw [subredditLoop, hg]
  simp only [if_true]
  exact subredditLoop_guard_false env sub budget fuel _ hg2

/-! ## The claims -/

/-- C1: an item id present in the known-ID set returned by the
deduplication oracle before the run starts is never submitted to the
persistence append (`push_post`) during that run, even if the same id is
encountered in multiple windows or sources. -/
theorem C1_dedup_correct (env : OriginEnv) (ai : AiEnv) (store : StoreEnv)
    (subs : List String) (today : String) (initialIds : List Nat)
    (progress : Progress) (dryRun : Bool) (x : Nat) (hx : x ∈ initialIds) :
    x ∉ (run_scheduler env ai store subs today initialIds progress dryRun).pushedIds := by
  rw [run_scheduler]
  split
  · simp
  · dsimp only
    split
    · intro hmem
      have h1 := push_posts_ids_sub store _ x hmem
      rw [process_posts_ids] at h1
      rcases List.mem_map.mp h1 with ⟨p, hp, rfl⟩
      exact runSubsLoop_inv env POSTS_PER_DAY_PER_SUBREDDIT subs initialIds []
        progress.subreddit_progress initialIds (fun y hy => hy)
        (by intro q hq; simp at hq) p hp hx
    · simp

theorem C1_dedup_correct_witness :
    (1 : Nat) ∈ [1] ∧
      (1 : Nat) ∉ (run_scheduler cEnvB cAiFail cStoreT [("s")] ("d") [1]
        { last_run := none, total_fetched := 0, subreddit_progress := [] }
        false).pushedIds :=
  ⟨by decide,
    C1_dedup_correct cEnvB cAiFail cStoreT [("s")] ("d") [1]
      { last_run := none, total_fetched := 0, subreddit_progress := [] }
      false 1 (by decide)⟩

/-- C2 counterexample: a run in which the current window (index 0)
yielded one new item and the index nevertheless advanced (an extra pass
over the same window came back empty, so the loop moved on).  This
refutes the claim that the index never advances during a run that yielded
at least one new item from the current window. -/
theorem C2_counterexample :
    (subredditRun cEnvA ("s") POSTS_PER_DAY_PER_SUBREDDIT 0 []).newPosts.length = 1 ∧
      0 < (subredditRun cEnvA ("s") POSTS_PER_DAY_PER_SUBREDDIT 0 []).periodIndex := by
  constructor
  · decide
  · decide

/-- C2 (amended): the window index never decreases, neither within one
run nor across consecutive runs; and within a run an iteration advances
the index exactly when its pass over the current window yields zero new
items (leaving the daily counter untouched), while a pass that yields
items leaves the index unchanged. -/
theorem C2_amended :
    (∀ (env : OriginEnv) (sub : String) (budget fuel : Nat) (st : SubState),
      st.periodIndex ≤ (subredditLoop env sub budget fuel st).periodIndex) ∧
    (∀ (env env2 : OriginEnv) (sub : String) (budget idx : Nat)
      (ids ids2 : List Nat),
      idx ≤ (subredditRun env sub budget idx ids).periodIndex ∧
      (subredditRun env sub budget idx ids).periodIndex ≤
        (subredditRun env2 sub budget
          (subredditRun env sub budget idx ids).periodIndex ids2).periodIndex) ∧
    (∀ (env : OriginEnv) (sub : String) (budget : Nat) (st : SubState),
      subGuard budget st = true →
      (fetch_batch env sub (TIME_PERIODS.getD st.periodIndex ("", "")).1
          (budget - st.fetchedToday) st.existing = [] →
        (subStep env sub budget st).periodIndex = st.periodIndex + 1 ∧
        (subStep env sub budget st).fetchedToday = st.fetchedToday) ∧
      (fetch_batch env sub (TIME_PERIODS.getD st.periodIndex ("", "")).1
          (budget - st.fetchedToday) st.existing ≠ [] →
        (subStep env sub budget st).periodIndex = st.periodIndex)) := by
  refine ⟨fun env sub budget fuel st => subredditLoop_periodIndex_le env sub budget fuel st,
    fun env env2 sub budget idx ids ids2 =>
      ⟨subredditLoop_periodIndex_le env sub budget (subFuel budget)
          { periodIndex := idx, fetchedToday := 0, existing := ids, newPosts := [] },
        subredditLoop_periodIndex_le env2 sub budget (subFuel budget)
          { periodIndex := (subredditRun env sub budget idx ids).periodIndex,
            fetchedToday := 0, existing := ids2, newPosts := [] }⟩,
    fun env sub budget st _ => ⟨fun hempty => ?_, fun hne => ?_⟩⟩
  · rw [subStep, hempty]
    exact ⟨rfl, rfl⟩
  · rw [subStep]
    rcases hb : fetch_batch env sub (TIME_PERIODS.getD st.periodIndex ("", "")).1
        (budget - st.fetchedToday) st.existing with _ | ⟨p, rest⟩
    · exact absurd hb hne
    · rfl

theorem C2_amended_witness :
    (subStep cEnvA ("s") 2 stA).periodIndex = stA.periodIndex :=
  (C2_amended.2.2 cEnvA ("s") 2 stA (by decide)).2 (by decide)

/-- C3: once the checkpoint window index has reached or passed the end of
the window schedule, the per-source loop is a no-op: nothing at all is
fetched for that source (the guard fails immediately), contradicting the
documented steady-state daily mode. -/
theorem C3_backfilled_fetches_nothing (env : OriginEnv) (sub : String)
    (budget fuel : Nat) (st : SubState)
    (h : TIME_PERIODS.length ≤ st.periodIndex) :
    subredditLoop env sub budget fuel st = st := by
  apply subredditLoop_guard_false
  have h2 : ¬ st.periodIndex < TIME_PERIODS.length := Nat.not_lt.mpr h
  simp [subGuard, h2]

theorem C3_backfilled_witness :
    (subredditRun cEnvA ("s") POSTS_PER_DAY_PER_SUBREDDIT 4 []).newPosts = [] := by
  rw [subredditRun, C3_backfilled_fetches_nothing cEnvA ("s")
    POSTS_PER_DAY_PER_SUBREDDIT (subFuel POSTS_PER_DAY_PER_SUBREDDIT) _ (by decide)]

/-- C4: with an origin supplying at least a full budget of new items in
the current window, one invocation captures exactly the budget for that
source — never more — and the window index does not advance; moreover a
pass that yields zero new items leaves the daily counter untouched and
advances the window immediately. -/
theorem C4_budget_enforcement :
    (∀ (env : OriginEnv) (sub : String) (budget idx : Nat) (existing : List Nat),
      idx < TIME_PERIODS.length →
      budget ≤ countNew (env.fetchPosts sub (TIME_PERIODS.getD idx ("", "")).1 budget) existing →
      (subredditRun env sub budget idx existing).fetchedToday = budget ∧
      (subredditRun env sub budget idx existing).periodIndex = idx ∧
      (subredditRun env sub budget idx existing).newPosts.length = budget) ∧
    (∀ (env : OriginEnv) (sub : String) (budget : Nat) (st : SubState),
      fetch_batch env sub (TIME_PERIODS.getD st.periodIndex ("", "")).1
          (budget - st.fetchedToday) st.existing = [] →
      (subStep env sub budget st).periodIndex = st.periodIndex + 1 ∧
      (subStep env sub budget st).fetchedToday = st.fetchedToday ∧
      (subStep env sub budget st).newPosts = st.newPosts) := by
  constructor
  · intro env sub budget idx existing hidx hsupply
    rcases Nat.eq_zero_or_pos budget with hb | hb
    · subst hb
      have hloop := subredditLoop_guard_false env sub 0 (subFuel 0)
        { periodIndex := idx, fetchedToday := 0, existing := existing, newPosts := [] }
        (by simp [subGuard])
      rw [subredditRun, hloop]
      exact ⟨rfl, rfl, rfl⟩
    · have hlen : (fetch_batch env sub (TIME_PERIODS.getD idx ("", "")).1 budget existing).length = budget :=
        fetchLoop_length_eq env sub _ existing budget hb hsupply
      have hne : fetch_batch env sub (TIME_PERIODS.getD idx ("", "")).1 budget existing ≠ [] := by
        intro hnil
        rw [hnil] at hlen
        simp at hlen
        omega
      have hstep : subStep env sub budget
          { periodIndex := idx, fetchedToday := 0, existing := existing, newPosts := [] } =
          { periodIndex := idx,
            fetchedToday := 0 + (fetch_batch env sub (TIME_PERIODS.getD idx ("", "")).1 budget existing).length,
            existing := existing ++ (fetch_batch env sub (TIME_PERIODS.getD idx ("", "")).1 budget existing).map (fun p => p.id),
            newPosts := [] ++ fetch_batch env sub (TIME_PERIODS.getD idx ("", "")).1 budget existing } := by
        rw [subStep]
        dsimp only
        rw [Nat.sub_zero]
        rcases hb2 : fetch_batch env sub (TIME_PERIODS.getD idx ("", "")).1 budget existing with _ | ⟨p, rest⟩
        · exact absurd hb2 hne
        · rfl
      have hguard : subGuard budget
          { periodIndex := idx, fetchedToday := 0, existing := existing, newPosts := [] } = true := by
        simp [subGuard]
        exact ⟨hb, hidx⟩
      have hguard2 : subGuard budget (subStep env sub budget
          { periodIndex := idx, fetchedToday := 0, existing := existing, newPosts := [] }) = false := by
        rw [hstep]
        simp only [subGuard]
        rw [hlen]
        simp
      have hstop := subredditLoop_stop_after_step env sub budget
        (budget + TIME_PERIODS.length)
        { periodIndex := idx, fetchedToday := 0, existing := existing, newPosts := [] }
        hguard hguard2
      rw [subredditRun, show subFuel budget = (budget + TIME_PERIODS.length) + 1 from rfl,
        hstop, hstep]
      refine ⟨?_, rfl, ?_⟩
      · show 0 + (fetch_batch env sub (TIME_PERIODS.getD idx ("", "")).1 budget existing).length = budget
        rw [Nat.zero_add, hlen]
      · show ([] ++ fetch_batch env sub (TIME_PERIODS.getD idx ("", "")).1 budget existing).length = budget
        rw [List.nil_append, hlen]
  · intro env sub budget st hempty
    rw [subStep, hempty]
    exact ⟨rfl, rfl, rfl⟩

theorem C4_budget_enforcement_witness :
    (subredditRun cEnvU ("s") 2 0 []).fetchedToday = 2 ∧
      (subredditRun cEnvU ("s") 2 0 []).periodIndex = 0 ∧
      (subredditRun cEnvU ("s") 2 0 []).newPosts.length = 2 :=
  C4_budget_enforcement.1 cEnvU ("s") 2 0 [] (by decide) (by decide)

/-- C7 counterexample: `fetch_batch` is a pure function of the origin and
the known-ID set, so a second invocation with a literally unchanged
known-ID set and unchanged origin data returns exactly the same non-empty
batch again — one new item, not zero. -/
theorem C7_counterexample :
    fetch_batch cEnvA ("s") ("day") 5 [] = [mkPost 1] ∧
      fetch_batch cEnvA ("s") ("day") 5 [] ≠ ([] : List Post) := by
  constructor
  · decide
  · decide

/-- C7 (amended): if the first walk returned fewer items than its limit
(the window was exhausted, so the loop scanned the whole page), then a
second walk over the same window with the known-ID set augmented by the
ids of the first result — which is exactly how `run_scheduler` grows the
set between passes — yields zero new items. -/
theorem C7_amended (env : OriginEnv) (sub tf : String) (limit : Nat)
    (ids : List Nat)
    (h : (fetch_batch env sub tf limit ids).length < limit) :
    fetch_batch env sub tf limit
      (ids ++ (fetch_batch env sub tf limit ids).map (fun p => p.id)) = [] := by
  apply fetchLoop_absorbed env env sub sub (env.fetchPosts sub tf limit) ids limit _ limit h
  · intro x hx
    exact List.mem_append_left _ hx
  · intro p hp
    exact List.mem_append_right _ (List.mem_map_of_mem _ hp)

theorem C7_amended_witness :
    fetch_batch cEnvA ("s") ("day") 5
      ([] ++ (fetch_batch cEnvA ("s") ("day") 5 []).map (fun p => p.id)) = [] :=
  C7_amended cEnvA ("s") ("day") 5 [] (by decide)

/-- C5 counterexample: an error that is not a rate-limit signal is
retried all the same — the wrapper succeeds on the second attempt after
sleeping the non-rate-limit backoff delay, instead of giving up
immediately as the claim states. -/
theorem C5_counterexample :
    isRateLimit ("boom") = false ∧ retry_with_backoff f0 5 2 = .ok 7 [2] := by
  constructor
  · decide
  · decide

/-- C5 (amended): the wrapper retries on any exception, up to the fixed
bound of attempts; the backoff delay grows multiplicatively across
attempts (base times 3 to the attempt for a rate-limit error, base times
2 to the attempt otherwise) and the attempt counter starts afresh for
each item; when every attempt fails, the final error is re-raised, and
the caller then assigns the default category, still runs the
deterministic extractor, and proceeds. -/
theorem C5_amended :
    (∀ {α : Type} (f : Nat → Except String α) (e : Nat → String) (base maxR : Nat),
      1 ≤ maxR → (∀ i, i < maxR → f i = .error (e i)) →
      retry_with_backoff f maxR base =
        .raised (e (maxR - 1))
          ((List.range (maxR - 1)).map
            (fun i => if isRateLimit (e i) then base * 3 ^ i else base * 2 ^ i))) ∧
    (∀ {α : Type} (f : Nat → Except String α) (a : α) (e : String) (base maxR : Nat),
      2 ≤ maxR → f 0 = .error e → f 1 = .ok a →
      retry_with_backoff f maxR base = .ok a [base]) ∧
    (∀ (ai : AiEnv) (p : Post) (e : String) (ds : List Nat),
      ai.clientConfigured = true →
      retry_with_backoff (ai.call p) 5 2 = .raised e ds →
      categorize_and_summarize ai p = aiFallback p) := by
  refine ⟨?_, ?_, ?_⟩
  · intro α f e base maxR h1 hf
    rw [retry_with_backoff, List.range_eq_range']
    have h := retryLoop_raised f e base maxR 0 h1
      (fun i _ hi2 => hf i (by omega))
    simpa using h
  · intro α f a e base maxR h2 hf0 hf1
    obtain ⟨m, rfl⟩ : ∃ m, maxR = m + 2 := ⟨maxR - 2, by omega⟩
    rw [retry_with_backoff, show m + 2 = (m + 1) + 1 from rfl, retryLoop, hf0]
    dsimp only
    rw [retryLoop, hf1]
    simp
  · intro ai p e ds hc hr
    rw [categorize_and_summarize, hc, hr]
    rfl

theorem C5_amended_witness :
    retry_with_backoff fRL 5 2 = .raised ("429 rate limit") [2, 6, 18, 54] := by
  have h := C5_amended.1 fRL (fun _ => ("429 rate limit")) 2 5 (by omega)
    (fun i _ => rfl)
  exact h.trans (by decide)

/-- C6 counterexample: with the AI client not configured, the item is
returned entirely unchanged: no default category and no deterministic
extraction record are attached, contrary to the claim that this failure
mode still yields `category = "Autre"` and non-null `extracted_data`. -/
theorem C6_counterexample :
    categorize_and_summarize cAiNone p0 = p0 ∧
      p0.category = none ∧ p0.extracted_data = none := by
  exact ⟨rfl, rfl, rfl⟩

/-- C6 (amended): with a configured client, every failure of the AI call
(rate-limit exhaustion or any other exception surfacing from the retry
wrapper, a wrapper that returns nothing, or a malformed reply) still
carries the item forward with the default category and the non-null
deterministic extraction record, raw fields intact; with no configured
client the item is carried forward completely unchanged (and hence
unenriched). -/
theorem C6_amended :
    (∀ (ai : AiEnv) (p : Post),
      ai.clientConfigured = true →
      ((∃ e ds, retry_with_backoff (ai.call p) 5 2 = .raised e ds) ∨
        retry_with_backoff (ai.call p) 5 2 = .noAttempt ∨
        (∃ txt ds, retry_with_backoff (ai.call p) 5 2 = .ok txt ds ∧
          ai.parseJson (String.mk (handleFences (pyStrip txt.data))) = none)) →
      (categorize_and_summarize ai p).category = some ("Autre") ∧
      (categorize_and_summarize ai p).extracted_data =
        some (extract_financial_data (fullText p)) ∧
      (categorize_and_summarize ai p).id = p.id ∧
      (categorize_and_summarize ai p).title = p.title ∧
      (categorize_and_summarize ai p).selftext = p.selftext) ∧
    (∀ (ai : AiEnv) (p : Post),
      ai.clientConfigured = false → categorize_and_summarize ai p = p) := by
  constructor
  · intro ai p hc hfail
    have hfb : categorize_and_summarize ai p = aiFallback p := by
      rcases hfail with ⟨e, ds, hr⟩ | hr | ⟨txt, ds, hr, hp⟩
      · rw [categorize_and_summarize, hc, hr]
        rfl
      · rw [categorize_and_summarize, hc, hr]
        rfl
      · rw [categorize_and_summarize, hc, hr]
        dsimp only
        rw [hp]
        rfl
    rw [hfb]
    exact ⟨rfl, rfl, rfl, rfl, rfl⟩
  · intro ai p hc
    rw [categorize_and_summarize, hc]
    rfl

theorem C6_amended_witness :
    (categorize_and_summarize cAiFail p0).category = some ("Autre") ∧
      (categorize_and_summarize cAiFail p0).extracted_data =
        some (extract_financial_data (fullText p0)) :=
  ⟨(C6_amended.1 cAiFail p0 rfl (Or.inl ⟨("boom"), [2, 4, 8, 16], by decide⟩)).1,
    (C6_amended.1 cAiFail p0 rfl (Or.inl ⟨("boom"), [2, 4, 8, 16], by decide⟩)).2.1⟩

/-- C8: evaluating the extractor at the determinism-test input.  The
amounts, age and monthly savings come out as the spec test expects, but
`patrimoine` is 500, not 150000: the first patrimoine pattern
(`patrimoine[^\d]*NUM`) skips over the non-digit text after the word
`patrimoine` and captures the following `500` (the monthly savings),
shadowing the second pattern that was written for the
`150k de patrimoine` phrasing. -/
theorem C8_extraction_eval :
    extract_financial_data c8text =
      { amounts := [150000, 500], patrimoine := some 500,
        revenus_annuels := none, revenus_mensuels := some 500,
        epargne_mensuelle := some 500, age := some 28,
        duree_annees := none } ∧
      (extract_financial_data c8text).patrimoine ≠ some 150000 := by
  have h : extract_financial_data c8text =
      { amounts := [150000, 500], patrimoine := some 500,
        revenus_annuels := none, revenus_mensuels := some 500,
        epargne_mensuelle := some 500, age := some 28,
        duree_annees := none } := by decide
  refine ⟨h, ?_⟩
  rw [h]
  decide

/-- C9: on the disambiguation-test input the duration loop extracts 28
from `depuis 28 ans`, and the age loop then discards its numerically
identical candidate from the `ai 28 ans` phrase, leaving `age` unset while
`duree_annees = 28`. -/
theorem C9_age_duration_disambiguation :
    (extract_financial_data c9text).age = none ∧
      (extract_financial_data c9text).duree_annees = some 28 := by
  have h : extract_financial_data c9text =
      { amounts := [], patrimoine := none, revenus_annuels := none,
        revenus_mensuels := none, epargne_mensuelle := none,
        age := none, duree_annees := some 28 } := by decide
  rw [h]
  exact ⟨rfl, rfl⟩

/-- C10: whenever the annual-income loop stores a value, that value is
the first truthy parsed amount of the income patterns, silently
multiplied by 12 exactly when it is below 10000 and stored unchanged at
or above 10000 — a function of the parsed number alone, not of any
per-month phrasing.  The two concrete instances show the conversion
firing (3000 becomes 3600 via the 3-digit capture 300) and not firing
(25k parses to 25000 and stays). -/
theorem C10_monthly_conversion :
    (∀ text : List Char,
      (extract_financial_data text).revenus_annuels =
        (firstRevenusAmount revenus_patterns (pyLower text)).map
          (fun v => if v < 10000 then v * 12 else v)) ∧
    (extract_financial_data (("salaire 3000").data)).revenus_annuels = some 3600 ∧
      (extract_financial_data (("gagne 25k").data)).revenus_annuels = some 25000 := by
  refine ⟨fun text => ?_, by decide, by decide⟩
  rw [extract_financial_data]
  split
  · rename_i htext
    rw [htext]
    decide
  · dsimp only
    exact revenusFromPatterns_eq_map (pyLower text) revenus_patterns

end Grepr
